import Mathlib

/-!
# Excel Comparison Tool — verification of the diffing engine

A shallow embedding of the comparison core of the Excel-Comparison-Tool
repository (`comparison_engine.py`, the comparison half of `vba_analyzer.py`,
and the interface surface of `excel_parser.py`), together with theorems
settling the specification's claims about it.

Modelling conventions:
* A sheet's grid is a list of rows, each a list of `CellVal`.  The source
  wraps grids in pandas DataFrames built from row lists; a DataFrame built
  this way pads ragged rows with NaN and its column count is the longest
  row's length.  `CellVal.na` stands for every pandas "missing" value
  (NaN, None, out-of-bounds padding from `reindex`): `pandas.isna` is true
  exactly of these and the engine's mask treats them alike.
* Python dicts keyed by strings are modelled as a `Finset String` of keys
  plus a lookup function that is only read on those keys.
* The MD5 content digest of a macro module is modelled by `contentHash`, a
  deterministic function of the byte content; the engine uses the digest
  purely as an equality oracle, never inspecting its value.
-/

namespace ExcelCompare

/-- A scalar cell value as the engine sees it after pandas parsing.
`na` is any pandas-missing value: NaN, None, or padding introduced by
`reindex` when grids are aligned (`comparison_engine.py` line 122-123). -/
inductive CellVal where
  | na : CellVal
  | str (s : String) : CellVal
  | int (n : Int) : CellVal
  | bool (b : Bool) : CellVal
deriving DecidableEq, Repr

/-- `pandas.isna` on a cell value. -/
def CellVal.isna : CellVal → Bool
  | .na => true
  | _ => false

/-- A sheet's grid: the list of rows the parser feeds to `pd.DataFrame`
(`excel_parser.py` `_extract_sheet_data`). -/
abbrev Grid := List (List CellVal)

/-- Number of rows, `len(df)`. -/
def numRows (g : Grid) : Nat := g.length

/-- Number of columns, `len(df.columns)`: a DataFrame built from a list of
rows has as many columns as the longest row. -/
def numCols (g : Grid) : Nat := g.foldr (fun r acc => max r.length acc) 0

/-- `df.empty`: a pandas DataFrame is empty when either axis has length 0. -/
def gridEmpty (g : Grid) : Bool := numRows g == 0 || numCols g == 0

/-- The value at zero-based `(r, c)` of the padded DataFrame
(`reindex(index=range(max_rows), columns=range(max_cols), fill_value=None)`,
`comparison_engine.py` lines 122-123): out-of-bounds positions, and positions
a ragged row never filled, read as missing. -/
def cellAt (g : Grid) (r c : Nat) : CellVal := (g.getD r []).getD c .na

/-- The element-wise difference mask of `comparison_engine.py` line 126:
`(df1_padded != df2_padded) & ~(df1_padded.isna() & df2_padded.isna())`.
pandas `!=` is true whenever exactly one side is missing (missing compares
unequal to everything), and the conjunct masks out positions where both
sides are missing. -/
def cellDiffers (a b : CellVal) : Bool :=
  match a, b with
  | .na, .na => false
  | .na, _ => true
  | _, .na => true
  | a, b => a != b

/-- One reported cell-level difference (`diff_locations` entry,
`comparison_engine.py` lines 133-138): 1-based coordinates and the two
padded values. -/
structure CellDifference where
  row : Nat
  col : Nat
  file1_value : CellVal
  file2_value : CellVal
deriving DecidableEq, Repr

/-- Row-major enumeration of zero-based positions, as the nested loops of
`comparison_engine.py` lines 130-131. -/
def positions (rows cols : Nat) : List (Nat × Nat) :=
  (List.range rows).flatMap fun r => (List.range cols).map fun c => (r, c)

/-- The `diff_locations` list of `_compare_single_sheet`
(`comparison_engine.py` lines 129-138): scan all padded positions in
row-major order and record those where the difference mask is set. -/
def diffLocations (g1 g2 : Grid) : List CellDifference :=
  let maxR := max (numRows g1) (numRows g2)
  let maxC := max (numCols g1) (numCols g2)
  (positions maxR maxC).filterMap fun p =>
    let a := cellAt g1 p.1 p.2
    let b := cellAt g2 p.1 p.2
    if cellDiffers a b then
      some { row := p.1 + 1, col := p.2 + 1, file1_value := a, file2_value := b }
    else none

/-- Result of `_compare_single_sheet`, tagged by which branch produced it:
both DataFrames empty (`{'identical': True, 'differences': 0}`), exactly one
empty (`{'identical': False, 'differences': 'One sheet is empty', 'details':
{'file1_empty': …, 'file2_empty': …}}`), or the aligned cell comparison with
its `diff_locations` and the two original shapes. -/
inductive SheetCmp where
  | bothEmpty : SheetCmp
  | oneEmpty (file1_empty file2_empty : Bool) : SheetCmp
  | cells (diff_locations : List CellDifference)
      (shape_file1 shape_file2 : Nat × Nat) : SheetCmp
deriving DecidableEq, Repr

/-- The `identical` field of a single-sheet comparison result. -/
def SheetCmp.identical : SheetCmp → Bool
  | .bothEmpty => true
  | .oneEmpty _ _ => false
  | .cells d _ _ => d.isEmpty

/-- The contribution of a non-identical sheet comparison to `sheet_diffs`
in `_generate_summary` (line 271): the numeric `differences` count when it
is an `int`, else 1 (the `'One sheet is empty'` string). -/
def SheetCmp.diffContribution : SheetCmp → Nat
  | .bothEmpty => 0
  | .oneEmpty _ _ => 1
  | .cells d _ _ => d.length

/-- The list of emitted cell differences of a single-sheet comparison
result: the `diff_locations` detail of the aligned branch; the empty-sheet
branches carry none. -/
def SheetCmp.diffList : SheetCmp → List CellDifference
  | .bothEmpty => []
  | .oneEmpty _ _ => []
  | .cells d _ _ => d

/-- Row-major precedence on reported differences: earlier row, or same row
and earlier column. -/
def cellDiffLt (a b : CellDifference) : Prop :=
  a.row < b.row ∨ (a.row = b.row ∧ a.col < b.col)

/-- `_compare_single_sheet` (`comparison_engine.py` lines 98-148). -/
def compareSingleSheet (g1 g2 : Grid) : SheetCmp :=
  if gridEmpty g1 && gridEmpty g2 then .bothEmpty
  else if gridEmpty g1 || gridEmpty g2 then .oneEmpty (gridEmpty g1) (gridEmpty g2)
  else .cells (diffLocations g1 g2) (numRows g1, numCols g1) (numRows g2, numCols g2)

/-! ## Formula Differ (`_compare_formulas`) -/

/-- One formula dict entry as the parser builds it (`excel_parser.py`
`_extract_formulas`): the formula text and the owning sheet name. -/
structure FormulaEntry where
  formula : String
  sheet : String
deriving DecidableEq, Repr

/-- A sheet's formula dict `{cellAddress: FormulaEntry}`: its key set and a
lookup function, read only on the keys. -/
structure FormulaSheet where
  keys : Finset String
  entry : String → FormulaEntry

/-- The empty formula dict, `formulas.get(sheet_name, {})` default. -/
def emptyFormulaSheet : FormulaSheet :=
  { keys := ∅, entry := fun _ => { formula := "", sheet := "" } }

/-- A document's formula mapping `{sheetName: {cellAddress: entry}}`:
its sheet-name key set and per-sheet dicts, read only on the keys. -/
structure Formulas where
  sheets : Finset String
  data : String → FormulaSheet

/-- `formulas.get(sheet_name, {})` (`comparison_engine.py` lines 167-168). -/
def Formulas.getSheet (f : Formulas) (s : String) : FormulaSheet :=
  if s ∈ f.sheets then f.data s else emptyFormulaSheet

/-- `added_cells = cell_addresses2 - cell_addresses1` (line 175). -/
def addedCells (s1 s2 : FormulaSheet) : Finset String := s2.keys \ s1.keys

/-- `removed_cells = cell_addresses1 - cell_addresses2` (line 182). -/
def removedCells (s1 s2 : FormulaSheet) : Finset String := s1.keys \ s2.keys

/-- The keys of `modified_cells` (lines 189-201): common addresses whose
`'formula'` texts differ. -/
def modifiedCells (s1 s2 : FormulaSheet) : Finset String :=
  (s1.keys ∩ s2.keys).filter fun c => (s1.entry c).formula ≠ (s2.entry c).formula

/-- The keys of `identical_cells` (lines 189-203): common addresses whose
`'formula'` texts agree. -/
def identicalCells (s1 s2 : FormulaSheet) : Finset String :=
  (s1.keys ∩ s2.keys).filter fun c => (s1.entry c).formula = (s2.entry c).formula

/-- The `summary` dict of `_compare_formulas` (lines 216-222). -/
structure FormulaSummary where
  total_added : Nat
  total_removed : Nat
  total_modified : Nat
  total_identical : Nat
  total_formulas : Nat
deriving DecidableEq, Repr

/-- Result of `_compare_formulas`: for each sheet name the key sets of the
four per-sheet dicts (`added_formulas[sheet]` etc.; the dicts' values are
the corresponding entries of the input mappings), plus the totals summary.
The source stores a sheet's dict only when non-empty; `formulas.get` with an
empty default makes that the same mapping. -/
structure FormulaCmp where
  added : String → Finset String
  removed : String → Finset String
  modified : String → Finset String
  identicalF : String → Finset String
  summary : FormulaSummary

/-- `all_sheets = set(formulas1.keys()) | set(formulas2.keys())` (line 164). -/
def allSheets (f1 f2 : Formulas) : Finset String := f1.sheets ∪ f2.sheets

/-- `_compare_formulas` (`comparison_engine.py` lines 150-224). The totals
sum the per-sheet dict sizes; sheets outside `all_sheets` have empty dicts
on both sides and contribute nothing. -/
def compareFormulas (f1 f2 : Formulas) : FormulaCmp :=
  let added := fun s => addedCells (f1.getSheet s) (f2.getSheet s)
  let removed := fun s => removedCells (f1.getSheet s) (f2.getSheet s)
  let modified := fun s => modifiedCells (f1.getSheet s) (f2.getSheet s)
  let identicalF := fun s => identicalCells (f1.getSheet s) (f2.getSheet s)
  let ta := Finset.sum (allSheets f1 f2) fun s => (added s).card
  let tr := Finset.sum (allSheets f1 f2) fun s => (removed s).card
  let tm := Finset.sum (allSheets f1 f2) fun s => (modified s).card
  let ti := Finset.sum (allSheets f1 f2) fun s => (identicalF s).card
  { added := added, removed := removed, modified := modified,
    identicalF := identicalF,
    summary := { total_added := ta, total_removed := tr, total_modified := tm,
                 total_identical := ti, total_formulas := ta + tr + tm + ti } }

/-! ## Macro Differ (`vba_analyzer.py`) -/

/-- A deterministic content digest standing for the MD5 hash computed in
`_extract_vba_components` (`hashlib.md5(module_data).hexdigest()`).  The
engine uses the digest only as an equality oracle on byte content, so the
model keeps the one property the code relies on: the digest is a function
of the bytes alone. -/
def contentHash (bytes : List Nat) : Nat :=
  bytes.foldl (fun h b => h * 256 + b % 256) 1

/-- One VBA module dict entry (`_extract_vba_components` lines 47-51): the
raw bytes; the stored `hash` and `size` fields are precomputed from them. -/
structure ModuleInfo where
  data : List Nat
deriving DecidableEq, Repr

/-- The `'hash'` field: always `contentHash` of the stored bytes. -/
def ModuleInfo.hash (m : ModuleInfo) : Nat := contentHash m.data

/-- The `'size'` field: `len(module_data)`. -/
def ModuleInfo.size (m : ModuleInfo) : Nat := m.data.length

/-- A document's `modules` dict `{moduleName: ModuleInfo}`: key set and
lookup, read only on the keys. -/
structure Modules where
  keys : Finset String
  mod : String → ModuleInfo

/-- `added` of `_compare_modules` (`vba_analyzer.py` line 204). -/
def modulesAdded (m1 m2 : Modules) : Finset String := m2.keys \ m1.keys

/-- `removed` of `_compare_modules` (line 205). -/
def modulesRemoved (m1 m2 : Modules) : Finset String := m1.keys \ m2.keys

/-- `modified` of `_compare_modules` (line 206): common names with
differing content hash. -/
def modulesModified (m1 m2 : Modules) : Finset String :=
  (m1.keys ∩ m2.keys).filter fun k => (m1.mod k).hash ≠ (m2.mod k).hash

/-- `unchanged` of `_compare_modules` (line 207): common names with equal
content hash. -/
def modulesUnchanged (m1 m2 : Modules) : Finset String :=
  (m1.keys ∩ m2.keys).filter fun k => (m1.mod k).hash = (m2.mod k).hash

/-- The `summary` dict of `compare_vba_code` (lines 184-194).  The
procedure- and function-level differs are documented stubs returning empty
change sets, so their counters are always zero. -/
structure VbaSummary where
  modules_added : Nat
  modules_removed : Nat
  modules_modified : Nat
  procedures_added : Nat
  procedures_removed : Nat
  procedures_modified : Nat
  functions_added : Nat
  functions_removed : Nat
  functions_modified : Nat
deriving DecidableEq, Repr

/-- Result of `compare_vba_code` restricted to the module comparison (the
procedure/function/variable comparisons are empty stubs). -/
structure VbaCmp where
  added : Finset String
  removed : Finset String
  modified : Finset String
  unchanged : Finset String
  summary : VbaSummary

/-- `compare_vba_code` (`vba_analyzer.py` lines 173-196). -/
def compareVba (m1 m2 : Modules) : VbaCmp :=
  { added := modulesAdded m1 m2
    removed := modulesRemoved m1 m2
    modified := modulesModified m1 m2
    unchanged := modulesUnchanged m1 m2
    summary :=
      { modules_added := (modulesAdded m1 m2).card
        modules_removed := (modulesRemoved m1 m2).card
        modules_modified := (modulesModified m1 m2).card
        procedures_added := 0, procedures_removed := 0, procedures_modified := 0
        functions_added := 0, functions_removed := 0, functions_modified := 0 } }

/-! ## Workbook properties (`_compare_workbook_properties`) -/

/-- The dict returned by `get_workbook_properties` (`excel_parser.py` lines
142-150).  The openpyxl metadata fields may be `None`, hence `Option`;
`created`/`modified` are datetimes, opaque to the comparison, modelled as
optional strings; `sheets_count` is `len(workbook.sheetnames)`. -/
structure WorkbookProps where
  title : Option String
  subject : Option String
  creator : Option String
  created : Option String
  modified : Option String
  last_modified_by : Option String
  sheets_count : Nat
deriving DecidableEq, Repr

/-- The `key_props` loop of `_compare_workbook_properties` lines 69-76:
the ordered list of names of the five compared properties whose values
differ — the keys of the `differences` dict in insertion order. -/
def propDifferences (p1 p2 : WorkbookProps) : List String :=
  (if p1.title ≠ p2.title then ["title"] else []) ++
  (if p1.subject ≠ p2.subject then ["subject"] else []) ++
  (if p1.creator ≠ p2.creator then ["creator"] else []) ++
  (if p1.last_modified_by ≠ p2.last_modified_by then ["last_modified_by"] else []) ++
  (if p1.sheets_count ≠ p2.sheets_count then ["sheets_count"] else [])

/-- Result of `_compare_workbook_properties` (lines 56-78): the `identical`
flag, the differing-property names (whose before/after values are read off
`file1`/`file2`), and both property dicts. -/
structure PropsCmp where
  identical : Bool
  differences : List String
  file1 : WorkbookProps
  file2 : WorkbookProps
deriving DecidableEq, Repr

/-- `_compare_workbook_properties`: `identical` starts `True` and is set
`False` whenever one of the five key properties differs, i.e. it ends up
`True` exactly when no key property differed. -/
def compareProps (p1 p2 : WorkbookProps) : PropsCmp :=
  { identical := (propDifferences p1 p2).isEmpty
    differences := propDifferences p1 p2
    file1 := p1
    file2 := p2 }

/-! ## Sheet-Set Differ and documents -/

/-- One parsed document as the engine reads it off an `ExcelParser`:
ordered sheet names (`get_sheet_names`), per-sheet grids (`get_sheet_data`,
empty for unknown names), the formula mapping (`get_formulas`), workbook
properties, and the macro-module dict produced by VBA extraction. -/
structure Document where
  sheetNames : List String
  grids : String → Grid
  formulas : Formulas
  props : WorkbookProps
  modules : Modules

/-- Result of `_compare_sheets` (lines 80-96): the set contents of the
`added_sheets` / `removed_sheets` / `common_sheets` lists and the per-sheet
comparison map, meaningful on the common sheets. -/
structure SheetsCmp where
  added_sheets : Finset String
  removed_sheets : Finset String
  common_sheets : Finset String
  sheet_comparisons : String → SheetCmp

/-- `_compare_sheets`: sheet names are compared as sets, and every common
sheet gets a `_compare_single_sheet` result. -/
def compareSheets (d1 d2 : Document) : SheetsCmp :=
  { added_sheets := d2.sheetNames.toFinset \ d1.sheetNames.toFinset
    removed_sheets := d1.sheetNames.toFinset \ d2.sheetNames.toFinset
    common_sheets := d1.sheetNames.toFinset ∩ d2.sheetNames.toFinset
    sheet_comparisons := fun s => compareSingleSheet (d1.grids s) (d2.grids s) }

/-! ## Orchestrator (`compare_all`, `_generate_summary`) -/

/-- The `summary` dict of `_generate_summary` (lines 233-302), with
`differences_by_type` flattened into the four counters. -/
structure Summary where
  files_identical : Bool
  total_differences : Nat
  by_type_sheets : Nat
  by_type_formulas : Nat
  by_type_vba : Nat
  by_type_properties : Nat
  recommendations : List String
deriving DecidableEq, Repr

/-- The `comparison_results` dict assembled by `compare_all` (lines 43-52). -/
structure Results where
  workbook_properties : PropsCmp
  sheets : SheetsCmp
  formulas : FormulaCmp
  vba_code : VbaCmp
  summary : Summary

/-- `sheet_diffs` of `_generate_summary` (lines 268-271): added plus
removed sheet count, plus each non-identical common sheet's contribution. -/
def sheetDiffs (sc : SheetsCmp) : Nat :=
  sc.added_sheets.card + sc.removed_sheets.card +
    Finset.sum sc.common_sheets fun s =>
      if (sc.sheet_comparisons s).identical then 0
      else (sc.sheet_comparisons s).diffContribution

/-- `_generate_summary` (lines 233-302), computed from the other fields of
the partially-built `comparison_results`. -/
def generateSummary (props : PropsCmp) (sheets : SheetsCmp)
    (formulas : FormulaCmp) (vba : VbaCmp) : Summary :=
  let sheetsIdentical :=
    sheets.added_sheets.card == 0 && sheets.removed_sheets.card == 0
  let formulasIdentical :=
    formulas.summary.total_added == 0 && formulas.summary.total_removed == 0 &&
      formulas.summary.total_modified == 0
  let vbaIdentical :=
    vba.summary.modules_added == 0 && vba.summary.modules_removed == 0 &&
      vba.summary.modules_modified == 0
  let sheet_diffs := sheetDiffs sheets
  let formula_diffs := formulas.summary.total_added +
    formulas.summary.total_removed + formulas.summary.total_modified
  let vba_diffs := vba.summary.modules_added + vba.summary.modules_removed +
    vba.summary.modules_modified
  { files_identical :=
      sheetsIdentical && formulasIdentical && vbaIdentical && props.identical
    total_differences := sheet_diffs + formula_diffs + vba_diffs
    by_type_sheets := sheet_diffs
    by_type_formulas := formula_diffs
    by_type_vba := vba_diffs
    by_type_properties := props.differences.length
    recommendations :=
      (if sheet_diffs > 0 then ["Review sheet structure differences"] else []) ++
      (if formula_diffs > 0 then ["Check formula changes for accuracy"] else []) ++
      (if vba_diffs > 0 then ["Verify VBA code modifications"] else []) }

/-- The body of `compare_all` once both parsers are present (lines 43-54). -/
def compareDocs (d1 d2 : Document) : Results :=
  let props := compareProps d1.props d2.props
  let sheets := compareSheets d1 d2
  let formulas := compareFormulas d1.formulas d2.formulas
  let vba := compareVba d1.modules d2.modules
  { workbook_properties := props
    sheets := sheets
    formulas := formulas
    vba_code := vba
    summary := generateSummary props sheets formulas vba }

/-- The mutable state of a `ComparisonEngine`: the two optional parsers and
the stored `comparison_results` (`{}`, i.e. `none`, until a comparison
ran). -/
structure Engine where
  parser1 : Option Document
  parser2 : Option Document
  comparison_results : Option Results

/-- `compare_all` (lines 38-54): with either parser missing it returns the
empty dict (`none` here) and leaves the state alone — the `InvalidState`
condition of the specification; otherwise it computes the comparison,
stores it in `comparison_results`, and returns it. -/
def compareAll (e : Engine) : Option Results × Engine :=
  match e.parser1, e.parser2 with
  | some d1, some d2 =>
      let r := compareDocs d1 d2
      (some r, { e with comparison_results := some r })
  | _, _ => (none, e)

/-! ## Helper lemmas -/

lemma mem_positions {rows cols : Nat} {p : Nat × Nat} :
    p ∈ positions rows cols ↔ p.1 < rows ∧ p.2 < cols := by
  rcases p with ⟨r, c⟩
  simp only [positions, List.mem_flatMap, List.mem_map, List.mem_range,
    Prod.mk.injEq]
  constructor
  · rintro ⟨a, ha, b, hb, rfl, rfl⟩
    exact ⟨ha, hb⟩
  · rintro ⟨hr, hc⟩
    exact ⟨r, hr, c, hc, rfl, rfl⟩

lemma pairwise_positions (rows cols : Nat) :
    (positions rows cols).Pairwise
      (fun p q => p.1 < q.1 ∨ (p.1 = q.1 ∧ p.2 < q.2)) := by
  refine List.pairwise_flatMap.2 ⟨fun r _ => ?_, ?_⟩
  · exact List.pairwise_map.2 ((List.pairwise_lt_range cols).imp
      fun h => Or.inr ⟨rfl, h⟩)
  · refine (List.pairwise_lt_range rows).imp ?_
    intro r1 r2 h x hx y hy
    simp only [List.mem_map] at hx hy
    obtain ⟨c1, -, rfl⟩ := hx
    obtain ⟨c2, -, rfl⟩ := hy
    exact Or.inl h

lemma mem_diffLocations {g1 g2 : Grid} {d : CellDifference} :
    d ∈ diffLocations g1 g2 ↔
      ∃ r c, r < max (numRows g1) (numRows g2) ∧
        c < max (numCols g1) (numCols g2) ∧
        cellDiffers (cellAt g1 r c) (cellAt g2 r c) = true ∧
        d = { row := r + 1, col := c + 1, file1_value := cellAt g1 r c,
              file2_value := cellAt g2 r c } := by
  simp only [diffLocations, List.mem_filterMap, Option.ite_none_right_eq_some,
    Option.some.injEq]
  constructor
  · rintro ⟨⟨r, c⟩, hp, hd, rfl⟩
    exact ⟨r, c, (mem_positions.1 hp).1, (mem_positions.1 hp).2, hd, rfl⟩
  · rintro ⟨r, c, hr, hc, hd, rfl⟩
    exact ⟨⟨r, c⟩, mem_positions.2 ⟨hr, hc⟩, hd, rfl⟩

lemma pairwise_diffLocations (g1 g2 : Grid) :
    (diffLocations g1 g2).Pairwise cellDiffLt := by
  unfold diffLocations
  refine List.Pairwise.filterMap _ ?_ (pairwise_positions _ _)
  rintro ⟨r1, c1⟩ ⟨r2, c2⟩ h x hx y hy
  simp only [Option.mem_def, Option.ite_none_right_eq_some,
    Option.some.injEq] at hx hy
  obtain ⟨-, rfl⟩ := hx
  obtain ⟨-, rfl⟩ := hy
  simp only [cellDiffLt]
  rcases h with h | ⟨h, h2⟩
  · exact Or.inl (by omega)
  · exact Or.inr ⟨by omega, by omega⟩

lemma cellDiffers_of_isna {a b : CellVal} (ha : a.isna = true)
    (hb : b.isna = true) : cellDiffers a b = false := by
  cases a <;> cases b <;> simp_all [CellVal.isna, cellDiffers]

/-! ## Claim theorems: Table Aligner -/

/-- Grid `A` of the specification's worked scenario:
`[["Name","Age"],["John",25]]`. -/
def gridA : Grid := [[.str "Name", .str "Age"], [.str "John", .int 25]]

/-- Grid `B` of the specification's worked scenario:
`[["Name","Age"],["John",26]]`. -/
def gridB : Grid := [[.str "Name", .str "Age"], [.str "John", .int 26]]

/-- **C4.** For every pair of non-empty grids, the Table Aligner's result is
the aligned cell comparison whose identical verdict is true iff its
difference sequence is empty; a difference is reported exactly at the
aligned positions `(r, c)` with `r < max(R1,R2)`, `c < max(C1,C2)` where the
padded values differ, carrying 1-based `row = r+1`, `col = c+1` and both
values; and the sequence is in row-major order. -/
theorem aligner_verdict_and_order_C4 (g1 g2 : Grid)
    (h1 : gridEmpty g1 = false) (h2 : gridEmpty g2 = false) :
    compareSingleSheet g1 g2 =
      .cells (diffLocations g1 g2) (numRows g1, numCols g1)
        (numRows g2, numCols g2) ∧
    ((compareSingleSheet g1 g2).identical = true ↔ diffLocations g1 g2 = []) ∧
    (∀ d, d ∈ diffLocations g1 g2 ↔
      ∃ r c, r < max (numRows g1) (numRows g2) ∧
        c < max (numCols g1) (numCols g2) ∧
        cellDiffers (cellAt g1 r c) (cellAt g2 r c) = true ∧
        d = { row := r + 1, col := c + 1, file1_value := cellAt g1 r c,
              file2_value := cellAt g2 r c }) ∧
    (diffLocations g1 g2).Pairwise cellDiffLt := by
  have hc : compareSingleSheet g1 g2 =
      .cells (diffLocations g1 g2) (numRows g1, numCols g1)
        (numRows g2, numCols g2) := by
    simp [compareSingleSheet, h1, h2]
  refine ⟨hc, ?_, fun d => mem_diffLocations, pairwise_diffLocations g1 g2⟩
  rw [hc]
  simp [SheetCmp.identical, List.isEmpty_iff]

/-- Witness for C4 at the specification's worked scenario grids. -/
theorem aligner_verdict_and_order_C4_witness :
    compareSingleSheet gridA gridB =
      .cells (diffLocations gridA gridB) (numRows gridA, numCols gridA)
        (numRows gridB, numCols gridB) :=
  (aligner_verdict_and_order_C4 gridA gridB rfl rfl).1

/-- **C3 (amended).** The Table Aligner never emits a `CellDifference` at an
aligned position where both padded cells are missing (absent by
out-of-bounds padding, `None`, or NaN — all of which `pandas.isna`
recognises); an empty-string cell, however, is a present value, and
comparing it against a missing cell does set the difference mask. -/
theorem no_diff_when_both_missing_C3 (g1 g2 : Grid) (r c : Nat)
    (h1 : (cellAt g1 r c).isna = true) (h2 : (cellAt g2 r c).isna = true) :
    (compareSingleSheet g1 g2).diffList.countP
        (fun d => d.row == r + 1 && d.col == c + 1) = 0 ∧
    cellDiffers (CellVal.str "") CellVal.na = true := by
  refine ⟨?_, rfl⟩
  have key : ∀ d ∈ diffLocations g1 g2,
      ¬(d.row == r + 1 && d.col == c + 1) = true := by
    intro d hd
    obtain ⟨r1, c1, -, -, hdiff, rfl⟩ := mem_diffLocations.1 hd
    simp only [Bool.and_eq_true, beq_iff_eq]
    rintro ⟨hr, hcn⟩
    have hr1 : r1 = r := by omega
    have hc1 : c1 = c := by omega
    rw [hr1, hc1, cellDiffers_of_isna h1 h2] at hdiff
    exact Bool.false_ne_true hdiff
  simp only [compareSingleSheet]
  split
  · rfl
  · split
    · rfl
    · exact List.countP_eq_zero.2 key

/-- Witness for C3 (amended): two one-cell grids whose only cells are both
missing produce no difference at the aligned position. -/
theorem no_diff_when_both_missing_C3_witness :
    (compareSingleSheet [[CellVal.na]] [[CellVal.na]]).diffList.countP
        (fun d => d.row == 0 + 1 && d.col == 0 + 1) = 0 ∧
    cellDiffers (CellVal.str "") CellVal.na = true :=
  no_diff_when_both_missing_C3 [[CellVal.na]] [[CellVal.na]] 0 0 rfl rfl

/-- **C3 counterexample.** The claim says comparing an absent cell against
an empty-string cell yields no `CellDifference`.  On the code it does: grid
1 is `[["a"],[""]]`, grid 2 is `[["a"]]`; at aligned position `(1,0)` grid 1
holds the empty string and grid 2 is out of bounds (padded to missing), and
the Table Aligner reports exactly that cell as a difference. -/
theorem emptyString_vs_absent_counterexample_C3 :
    compareSingleSheet [[CellVal.str "a"], [CellVal.str ""]]
        [[CellVal.str "a"]] =
      .cells [{ row := 2, col := 1, file1_value := CellVal.str "",
                file2_value := CellVal.na }] (2, 1) (1, 1) := by
  decide

/-- **C5 (amended).** "Empty" for the branch choice is pandas emptiness —
zero rows or zero columns.  When both grids are empty in that sense the
result is the identical/zero-difference branch; when exactly one is, the
result is the qualitative one-side-empty branch flagging which side was
empty, not a per-cell difference list. -/
theorem empty_sheet_branch_C5 (g1 g2 : Grid) :
    (gridEmpty g1 = true → gridEmpty g2 = true →
      compareSingleSheet g1 g2 = .bothEmpty ∧
      (compareSingleSheet g1 g2).identical = true ∧
      (compareSingleSheet g1 g2).diffList = []) ∧
    (gridEmpty g1 = true → gridEmpty g2 = false →
      compareSingleSheet g1 g2 = .oneEmpty true false) ∧
    (gridEmpty g1 = false → gridEmpty g2 = true →
      compareSingleSheet g1 g2 = .oneEmpty false true) := by
  refine ⟨?_, ?_, ?_⟩ <;> intro h1 h2 <;>
    simp [compareSingleSheet, h1, h2, SheetCmp.identical, SheetCmp.diffList]

/-- **C5 counterexample.** The claim reads "empty" as "zero rows".  The grid
`[[]]` has one row and zero columns, so of the pair `([], [[]])` exactly one
grid has zero rows — yet pandas counts both DataFrames as empty and the code
takes the both-empty identical branch, not the one-side-empty branch the
claim requires. -/
theorem zero_rows_vs_zero_cols_counterexample_C5 :
    numRows ([] : Grid) = 0 ∧ numRows [([] : List CellVal)] = 1 ∧
    compareSingleSheet ([] : Grid) [([] : List CellVal)] = .bothEmpty := by
  decide

/-! ## Claim theorems: Formula Differ and Macro Differ -/

/-- **C2.** For every pair of formula mappings and every sheet name, the
four per-sheet address sets of the formula comparison are pairwise disjoint
and their union is the union of both sides' address sets for that sheet. -/
theorem formula_partition_C2 (f1 f2 : Formulas) (s : String) :
    ((compareFormulas f1 f2).added s ∩ (compareFormulas f1 f2).removed s = ∅) ∧
    ((compareFormulas f1 f2).added s ∩ (compareFormulas f1 f2).modified s = ∅) ∧
    ((compareFormulas f1 f2).added s ∩ (compareFormulas f1 f2).identicalF s = ∅) ∧
    ((compareFormulas f1 f2).removed s ∩ (compareFormulas f1 f2).modified s = ∅) ∧
    ((compareFormulas f1 f2).removed s ∩ (compareFormulas f1 f2).identicalF s = ∅) ∧
    ((compareFormulas f1 f2).modified s ∩ (compareFormulas f1 f2).identicalF s = ∅) ∧
    ((compareFormulas f1 f2).added s ∪ (compareFormulas f1 f2).removed s ∪
        (compareFormulas f1 f2).modified s ∪ (compareFormulas f1 f2).identicalF s =
      (f1.getSheet s).keys ∪ (f2.getSheet s).keys) := by
  refine ⟨?_, ?_, ?_, ?_, ?_, ?_, ?_⟩ <;>
    · ext a
      simp only [compareFormulas, addedCells, removedCells, modifiedCells,
        identicalCells, Finset.mem_inter, Finset.mem_sdiff, Finset.mem_filter,
        Finset.mem_union, Finset.not_mem_empty, iff_false, not_and]
      tauto

/-- **C8.** The module comparison classifies each name only in side 2 as
added, each name only in side 1 as removed, each common name as modified or
unchanged according to hash inequality or equality; identical byte content
forces equal hashes and hence the unchanged class; and the four classes
partition the union of both sides' names. -/
theorem macro_classification_C8 (m1 m2 : Modules) :
    (∀ k, k ∈ (compareVba m1 m2).added ↔ k ∈ m2.keys ∧ k ∉ m1.keys) ∧
    (∀ k, k ∈ (compareVba m1 m2).removed ↔ k ∈ m1.keys ∧ k ∉ m2.keys) ∧
    (∀ k, k ∈ (compareVba m1 m2).modified ↔
      (k ∈ m1.keys ∧ k ∈ m2.keys) ∧ (m1.mod k).hash ≠ (m2.mod k).hash) ∧
    (∀ k, k ∈ (compareVba m1 m2).unchanged ↔
      (k ∈ m1.keys ∧ k ∈ m2.keys) ∧ (m1.mod k).hash = (m2.mod k).hash) ∧
    (∀ k, k ∈ m1.keys → k ∈ m2.keys → (m1.mod k).data = (m2.mod k).data →
      k ∈ (compareVba m1 m2).unchanged) ∧
    ((compareVba m1 m2).added ∩ (compareVba m1 m2).removed = ∅) ∧
    ((compareVba m1 m2).added ∩ (compareVba m1 m2).modified = ∅) ∧
    ((compareVba m1 m2).added ∩ (compareVba m1 m2).unchanged = ∅) ∧
    ((compareVba m1 m2).removed ∩ (compareVba m1 m2).modified = ∅) ∧
    ((compareVba m1 m2).removed ∩ (compareVba m1 m2).unchanged = ∅) ∧
    ((compareVba m1 m2).modified ∩ (compareVba m1 m2).unchanged = ∅) ∧
    ((compareVba m1 m2).added ∪ (compareVba m1 m2).removed ∪
        (compareVba m1 m2).modified ∪ (compareVba m1 m2).unchanged =
      m1.keys ∪ m2.keys) := by
  refine ⟨fun k => ?_, fun k => ?_, fun k => ?_, fun k => ?_,
    fun k hk1 hk2 hdata => ?_, ?_, ?_, ?_, ?_, ?_, ?_, ?_⟩
  · simp [compareVba, modulesAdded, Finset.mem_sdiff]
  · simp [compareVba, modulesRemoved, Finset.mem_sdiff]
  · simp only [compareVba, modulesModified, Finset.mem_filter,
      Finset.mem_inter]
  · simp only [compareVba, modulesUnchanged, Finset.mem_filter,
      Finset.mem_inter]
  · simp only [compareVba, modulesUnchanged, Finset.mem_filter,
      Finset.mem_inter, ModuleInfo.hash, hdata]
    exact ⟨⟨hk1, hk2⟩, trivial⟩
  all_goals
    ext a
    simp only [compareVba, modulesAdded, modulesRemoved, modulesModified,
      modulesUnchanged, Finset.mem_inter, Finset.mem_sdiff,
      Finset.mem_filter, Finset.mem_union, Finset.not_mem_empty, iff_false,
      not_and]
    tauto

/-! ## Claim theorems: workbook properties and orchestrator -/

/-- **C10.** The workbook-properties comparison's `identical` flag is true
iff its differences map is empty, the flag is determined exactly by the five
key properties, only those five names can appear among the differences, and
replacing the `created`/`modified` fields of either side never changes the
flag or the differences. -/
theorem props_verdict_C10 (p1 p2 : WorkbookProps) (c1 c2 m1 m2 : Option String) :
    ((compareProps p1 p2).identical = true ↔
      (compareProps p1 p2).differences = []) ∧
    ((compareProps p1 p2).identical = true ↔
      (p1.title = p2.title ∧ p1.subject = p2.subject ∧
       p1.creator = p2.creator ∧ p1.last_modified_by = p2.last_modified_by ∧
       p1.sheets_count = p2.sheets_count)) ∧
    (compareProps p1 p2).differences ⊆
      ["title", "subject", "creator", "last_modified_by", "sheets_count"] ∧
    ((compareProps { p1 with created := c1, modified := m1 }
        { p2 with created := c2, modified := m2 }).identical =
      (compareProps p1 p2).identical) ∧
    ((compareProps { p1 with created := c1, modified := m1 }
        { p2 with created := c2, modified := m2 }).differences =
      (compareProps p1 p2).differences) := by
  have hmem : ∀ (q : Prop) [Decidable q] (t a : String),
      a ∈ (if q then [t] else []) ↔ q ∧ a = t := by
    intro q _ t a
    split <;> simp_all
  refine ⟨?_, ?_, ?_, rfl, rfl⟩
  · simp [compareProps, List.isEmpty_iff]
  · by_cases h1 : p1.title = p2.title <;>
      by_cases h2 : p1.subject = p2.subject <;>
      by_cases h3 : p1.creator = p2.creator <;>
      by_cases h4 : p1.last_modified_by = p2.last_modified_by <;>
      by_cases h5 : p1.sheets_count = p2.sheets_count <;>
      simp [compareProps, propDifferences, h1, h2, h3, h4, h5]
  · intro a ha
    simp only [compareProps, propDifferences, List.mem_append, hmem] at ha
    simp only [List.mem_cons, List.mem_singleton]
    tauto

/-- **C1.** `files_identical` is true iff the sheet-set comparison has no
added and no removed sheets, the three formula totals are zero, the three
macro module totals are zero, and the workbook-properties `identical` flag
is true; and the flag is unchanged under any replacement of the per-sheet
grids, so per-cell differences inside common sheets never enter it. -/
theorem files_identical_iff_C1 (d1 d2 : Document) :
    ((compareDocs d1 d2).summary.files_identical = true ↔
      ((compareDocs d1 d2).sheets.added_sheets = ∅ ∧
       (compareDocs d1 d2).sheets.removed_sheets = ∅ ∧
       (compareDocs d1 d2).formulas.summary.total_added = 0 ∧
       (compareDocs d1 d2).formulas.summary.total_removed = 0 ∧
       (compareDocs d1 d2).formulas.summary.total_modified = 0 ∧
       (compareDocs d1 d2).vba_code.summary.modules_added = 0 ∧
       (compareDocs d1 d2).vba_code.summary.modules_removed = 0 ∧
       (compareDocs d1 d2).vba_code.summary.modules_modified = 0 ∧
       (compareDocs d1 d2).workbook_properties.identical = true)) ∧
    (∀ gs1 gs2 : String → Grid,
      (compareDocs { d1 with grids := gs1 }
          { d2 with grids := gs2 }).summary.files_identical =
        (compareDocs d1 d2).summary.files_identical) := by
  refine ⟨?_, fun gs1 gs2 => rfl⟩
  simp only [compareDocs, generateSummary, Bool.and_eq_true, beq_iff_eq,
    Finset.card_eq_zero]
  tauto

/-- **C6.** `total_differences` is the sheet-level count (added plus removed
sheet names, plus each non-identical common sheet's numeric cell-difference
count, or 1 for the qualitative one-side-empty result) plus the three
formula totals plus the three macro module totals, and `differences_by_type`
carries exactly the sheets, formulas, vba_code and properties counters. -/
theorem total_differences_C6 (d1 d2 : Document) :
    ((compareDocs d1 d2).summary.total_differences =
      ((d2.sheetNames.toFinset \ d1.sheetNames.toFinset).card +
        (d1.sheetNames.toFinset \ d2.sheetNames.toFinset).card +
        Finset.sum (d1.sheetNames.toFinset ∩ d2.sheetNames.toFinset) (fun s =>
          if (compareSingleSheet (d1.grids s) (d2.grids s)).identical then 0
          else (compareSingleSheet (d1.grids s) (d2.grids s)).diffContribution)) +
      ((compareFormulas d1.formulas d2.formulas).summary.total_added +
        (compareFormulas d1.formulas d2.formulas).summary.total_removed +
        (compareFormulas d1.formulas d2.formulas).summary.total_modified) +
      ((modulesAdded d1.modules d2.modules).card +
        (modulesRemoved d1.modules d2.modules).card +
        (modulesModified d1.modules d2.modules).card)) ∧
    ((compareDocs d1 d2).summary.by_type_sheets =
      (d2.sheetNames.toFinset \ d1.sheetNames.toFinset).card +
        (d1.sheetNames.toFinset \ d2.sheetNames.toFinset).card +
        Finset.sum (d1.sheetNames.toFinset ∩ d2.sheetNames.toFinset) (fun s =>
          if (compareSingleSheet (d1.grids s) (d2.grids s)).identical then 0
          else (compareSingleSheet (d1.grids s) (d2.grids s)).diffContribution)) ∧
    ((compareDocs d1 d2).summary.by_type_formulas =
      (compareFormulas d1.formulas d2.formulas).summary.total_added +
        (compareFormulas d1.formulas d2.formulas).summary.total_removed +
        (compareFormulas d1.formulas d2.formulas).summary.total_modified) ∧
    ((compareDocs d1 d2).summary.by_type_vba =
      (modulesAdded d1.modules d2.modules).card +
        (modulesRemoved d1.modules d2.modules).card +
        (modulesModified d1.modules d2.modules).card) ∧
    ((compareDocs d1 d2).summary.by_type_properties =
      (propDifferences d1.props d2.props).length) :=
  ⟨rfl, rfl, rfl, rfl, rfl⟩

/-- **C7.** Invoking `compare_all` with either document not loaded yields no
comparison result: the empty-dict return that the specification names the
`InvalidState` condition. -/
theorem invalid_state_C7 (e : Engine)
    (h : e.parser1 = none ∨ e.parser2 = none) :
    (compareAll e).1 = none := by
  obtain ⟨p1, p2, cr⟩ := e
  rcases h with h | h
  · subst h
    cases p2 <;> rfl
  · subst h
    cases p1 <;> rfl

/-- Witness for C7: a fresh engine with no documents loaded. -/
theorem invalid_state_C7_witness :
    (compareAll { parser1 := none, parser2 := none,
                  comparison_results := none }).1 = none :=
  invalid_state_C7
    { parser1 := none, parser2 := none, comparison_results := none }
    (Or.inl rfl)

/-- A small concrete document used to witness the orchestrator claims. -/
def sampleDoc : Document :=
  { sheetNames := ["Sheet1"]
    grids := fun _ => [[.str "x"]]
    formulas := { sheets := ∅, data := fun _ => emptyFormulaSheet }
    props := { title := none, subject := none, creator := some "author"
               created := none, modified := none, last_modified_by := none
               sheets_count := 1 }
    modules := { keys := ∅, mod := fun _ => { data := [] } } }

/-- The engine state with `sampleDoc` loaded on both sides. -/
def sampleEngine : Engine :=
  { parser1 := some sampleDoc, parser2 := some sampleDoc
    comparison_results := none }

/-- **C9.** With both documents loaded, `compare_all` returns exactly the
deterministic function `compareDocs` of the two documents, and running it
again on the post-call engine state returns the identical result: the
stored `comparison_results` of the first call cannot influence the second. -/
theorem compare_deterministic_C9 (e : Engine) (d1 d2 : Document)
    (h1 : e.parser1 = some d1) (h2 : e.parser2 = some d2) :
    (compareAll e).1 = some (compareDocs d1 d2) ∧
    (compareAll (compareAll e).2).1 = (compareAll e).1 := by
  obtain ⟨p1, p2, cr⟩ := e
  cases h1
  cases h2
  exact ⟨rfl, rfl⟩

/-- Witness for C9 at the concrete engine with `sampleDoc` on both sides. -/
theorem compare_deterministic_C9_witness :
    (compareAll sampleEngine).1 = some (compareDocs sampleDoc sampleDoc) ∧
    (compareAll (compareAll sampleEngine).2).1 =
      (compareAll sampleEngine).1 :=
  compare_deterministic_C9 sampleEngine sampleDoc sampleDoc rfl rfl

end ExcelCompare
